import Mathlib

/-!
Shallow embedding of `src/cleanup_empty_csvs.py`, a command-line utility that
scans a directory for `*.csv` files and deletes those containing only a header
row.  The embedding covers:

* the CPython `_csv` reader state machine for the default dialect
  (`quotechar = '"'`, `doublequote = True`, `escapechar = None`,
  `strict = False`), at character level, as used by `csv.reader` on a file
  opened with `newline=''` — records are terminated by `\n`, `\r` or `\r\n`,
  quoted fields may contain delimiters and line breaks, a doubled quote inside
  a quoted field is a literal quote, and in non-strict mode text after a
  closing quote is appended to the field;
* `is_empty_csv`, which reads the header record and then tests whether a
  second record exists, turning `UnicodeDecodeError` / `csv.Error` into a
  warning plus the return value `False`;
* `cleanup_directory`, the per-file walk with its `files_checked` /
  `files_deleted` counters, per-file exception handler, and dry-run mode;
* the delimiter aliasing and path validation performed by `main`.

File contents are modelled at the level the Python code observes them:
a candidate file either decodes to a text `String`, or raising behaviour is
recorded abstractly (`UnicodeDecodeError` on read, `csv.Error` during
tokenisation, `OSError` on open), since which concrete byte sequences raise
those exceptions is a property of the runtime, not of this program.
-/

namespace CleanupCsv

/-- Parser state of the CPython `_csv` reader state machine (default dialect),
restricted to the in-record states; the `START_RECORD` / `EAT_CRNL` handling
lives in `nextRecord` and `dropLF`. -/
inductive CsvState
  | startField
  | inField
  | inQuoted
  | quoteInQuoted
deriving DecidableEq, Repr

/-- A field is accumulated in reverse; closing it yields the field string. -/
def endField (f : List Char) : String := String.mk f.reverse

/-- Close the current record: append the pending field and return the fields
in order together with the unconsumed rest of the input. -/
def endRec (fs : List String) (f : List Char) (rest : List Char) :
    List String × List Char :=
  ((endField f :: fs).reverse, rest)

/-- After a record terminated by a carriage return, one immediately following
line feed is consumed as part of the terminator (CPython `EAT_CRNL`). -/
def dropLF (cs : List Char) : List Char :=
  match cs with
  | [] => []
  | c :: r => if c = '\n' then r else c :: r

/-- Instruction produced by feeding one character to the in-record parser:
either the record ends (`eatLF` records whether the terminator was `\r`, so
that a following `\n` is consumed), or parsing continues in a new state with
updated accumulators. -/
inductive Instr
  | endRecord (eatLF : Bool)
  | go (st : CsvState) (fs : List String) (f : List Char)
deriving Repr

/-- One transition of the CPython `_csv` parser (default dialect, reading,
non-strict), for delimiter `d`.  Branch order follows the C implementation:
in `START_FIELD` and `IN_FIELD` the end-of-line characters are tested before
the quote character and the delimiter; in `QUOTE_IN_QUOTED_FIELD` the quote
character is tested first, then the delimiter, then end-of-line, and any
other character is data appended to the field (non-strict mode). -/
def csvStep (d : Char) (st : CsvState) (fs : List String) (f : List Char)
    (c : Char) : Instr :=
  match st with
  | .startField =>
    if c = '\n' then .endRecord false
    else if c = '\r' then .endRecord true
    else if c = '"' then .go .inQuoted fs f
    else if c = d then .go .startField (endField f :: fs) []
    else .go .inField fs (c :: f)
  | .inField =>
    if c = '\n' then .endRecord false
    else if c = '\r' then .endRecord true
    else if c = d then .go .startField (endField f :: fs) []
    else .go .inField fs (c :: f)
  | .inQuoted =>
    if c = '"' then .go .quoteInQuoted fs f
    else .go .inQuoted fs (c :: f)
  | .quoteInQuoted =>
    if c = '"' then .go .inQuoted fs ('"' :: f)
    else if c = d then .go .startField (endField f :: fs) []
    else if c = '\n' then .endRecord false
    else if c = '\r' then .endRecord true
    else .go .inField fs (c :: f)

/-- Run the in-record parser to the end of the current record.  At end of
input the pending field is saved and the record emitted, matching the CPython
reader when the input iterator is exhausted in non-strict mode (this also
covers an unterminated quoted field). -/
def recAux (d : Char) : CsvState → List String → List Char → List Char →
    List String × List Char
  | _, fs, f, [] => endRec fs f []
  | st, fs, f, c :: cs =>
    match csvStep d st fs f c with
    | .endRecord true => endRec fs f (dropLF cs)
    | .endRecord false => endRec fs f cs
    | .go st2 fs2 f2 => recAux d st2 fs2 f2 cs

/-- Read one record off the front of the input, as one `next(reader)` call
does: `none` at end of input (`StopIteration`), otherwise the parsed record
and the unconsumed rest.  A line consisting only of a terminator yields the
empty record `[]` (CPython returns an empty list for a blank line); any other
first character enters `START_FIELD` on the same character, exactly like the
C parser falling through from `START_RECORD`. -/
def nextRecord (d : Char) : List Char → Option (List String × List Char)
  | [] => none
  | c :: cs =>
    if c = '\n' then some ([], cs)
    else if c = '\r' then some ([], dropLF cs)
    else some (recAux d .startField [] [] (c :: cs))

/-- All records of the input, by iterated `nextRecord`, with explicit fuel so
that the definition evaluates by kernel reduction. -/
def csvRecordsFuel (d : Char) : Nat → List Char → List (List String)
  | 0, _ => []
  | Nat.succ fuel, cs =>
    match nextRecord d cs with
    | none => []
    | some (r, rest) => r :: csvRecordsFuel d fuel rest

/-- The full list of records the reader yields on the given input: the file
"parsed as delimiter-separated records with CSV quoting".  Since `nextRecord`
consumes at least one character per record, `cs.length` is enough fuel. -/
def csvRecords (d : Char) (cs : List Char) : List (List String) :=
  csvRecordsFuel d cs.length cs

example : csvRecords ',' "a,b\nc,d\n".data = [["a", "b"], ["c", "d"]] := by decide
example : csvRecords ',' "".data = [] := by decide
example : csvRecords ',' "name,age\n".data = [["name", "age"]] := by decide
example : csvRecords ',' "name,age".data = [["name", "age"]] := by decide
example : csvRecords ',' "\n\na,b\n".data = [[], [], ["a", "b"]] := by decide
example : csvRecords ',' "a,\n".data = [["a", ""]] := by decide
example : csvRecords ',' "a,".data = [["a", ""]] := by decide
example : csvRecords ',' "\x22a,b\x22\n".data = [["a,b"]] := by decide
example : csvRecords ',' "\x22a\x22\x22b\x22\n".data = [["a\x22b"]] := by decide
example : csvRecords ',' "\x22a\nb\x22,c".data = [["a\nb", "c"]] := by decide
example : csvRecords ',' "\x22ab".data = [["ab"]] := by decide
example : csvRecords ',' "a\r\nb\r".data = [["a"], ["b"]] := by decide
example : csvRecords ',' "\r\n".data = [[]] := by decide
example : csvRecords ',' "a\x22b\n".data = [["a\x22b"]] := by decide
example : csvRecords ',' "\x22a\x22x,y\n".data = [["ax", "y"]] := by decide
example : csvRecords '|' "a|b\n".data = [["a", "b"]] := by decide
example : csvRecords '|' "a,b\n".data = [["a,b"]] := by decide

/-- What the Python code observes when it opens and reads one candidate file:
the file either decodes as UTF-8 to a text string, or one of the exceptions
named in the source is raised.  Which concrete byte sequences raise
`UnicodeDecodeError` (invalid UTF-8 on read) or `csv.Error` (the tokenizer
gives up, e.g. a field above the field size limit) is a property of the
runtime, so those two are recorded abstractly with their message; `openError`
models `open` itself raising `OSError` (missing file, permissions). -/
inductive FileContent
  | text (content : String)
  | decodeError (msg : String)
  | csvError (msg : String)
  | openError (msg : String)
deriving DecidableEq, Repr

/-- Result of calling `is_empty_csv`: the function either returns a boolean
after printing the given warning lines to stderr, or an exception escapes it
uncaught. -/
inductive Outcome
  | returns (value : Bool) (warnings : List String)
  | raises (exc : String)
deriving DecidableEq, Repr

/-- The warning line `is_empty_csv` prints to stderr on a caught exception
(source line 38). -/
def warnMsg (path msg : String) : String :=
  "Warning: Could not process " ++ path ++ ": " ++ msg

/-- The per-file error line `cleanup_directory` prints to stderr when an
exception escapes processing of one candidate (source line 87). -/
def errMsg (path msg : String) : String :=
  "Error processing " ++ path ++ ": " ++ msg

/-- The exception message of `csv.reader(csvfile, delimiter=d)` when `d` is
not a string of length one. -/
def typeErrorMsg : String := "TypeError: \x22delimiter\x22 must be a 1-character string"

/-- The body of `is_empty_csv` on decoded text (source lines 32-36):
`next(reader, None)` consumes the header, a second `next(reader, None)`
looks for a data record, and the function returns whether it was `None`. -/
def is_empty_core (d : Char) (s : String) : Bool :=
  match nextRecord d s.data with
  | none => true
  | some (_, rest) =>
    match nextRecord d rest with
    | none => true
    | some _ => false

/-- `is_empty_csv(file_path, delimiter)` (source lines 30-40).  `open` runs
first, so an `OSError` escapes uncaught; `csv.reader` then rejects any
delimiter that is not a 1-character string with a `TypeError`, which the
`except (UnicodeDecodeError, csv.Error)` clause does not catch; with a valid
delimiter, a decode or tokenizer failure is caught and turned into a warning
plus the return value `False`, and on text the header/second-record test
runs. -/
def is_empty_csv (path : String) (delimiter : String) (file : FileContent) :
    Outcome :=
  match file with
  | .openError msg => .raises msg
  | .text s =>
    if delimiter.length = 1 then .returns (is_empty_core delimiter.front s) []
    else .raises typeErrorMsg
  | .decodeError msg =>
    if delimiter.length = 1 then .returns false [warnMsg path msg]
    else .raises typeErrorMsg
  | .csvError msg =>
    if delimiter.length = 1 then .returns false [warnMsg path msg]
    else .raises typeErrorMsg

example : is_empty_csv "a.csv" "," (.text "name,age\n") = .returns true [] := by decide
example : is_empty_csv "a.csv" "," (.text "") = .returns true [] := by decide
example : is_empty_csv "a.csv" "," (.text "name,age\nbob,30\n") = .returns false [] := by decide
example : is_empty_csv "a.csv" "," (.text "name,age\n,\n") = .returns false [] := by decide
example : is_empty_csv "c.csv" "," (.decodeError "bad byte") =
    .returns false [warnMsg "c.csv" "bad byte"] := by decide
example : is_empty_csv "a.csv" ";;" (.text "x\n") = .raises typeErrorMsg := by decide

/-- Python string lowercasing as used on the delimiter argument; the compared
literals are ASCII, so ASCII case folding is the relevant fragment. -/
def pyLower (s : String) : String := String.mk (s.data.map Char.toLower)

/-- The delimiter aliasing in `main` (source lines 130-136): a value whose
lowercase form is `pipe` becomes `|`, one whose lowercase form is `tab`
becomes the tab character, anything else is used as given. -/
def resolve_delimiter (arg : String) : String :=
  if pyLower arg = "pipe" then "|"
  else if pyLower arg = "tab" then "\t"
  else arg

example : resolve_delimiter "pipe" = "|" := by decide
example : resolve_delimiter "PIPE" = "|" := by decide
example : resolve_delimiter "Tab" = "\t" := by decide
example : resolve_delimiter ";" = ";" := by decide
example : resolve_delimiter "|" = "|" := by decide

/-- One candidate file found by the glob: its path, what the program observes
when it opens and reads it, and whether `os.remove` on it would fail
(`some msg`: the named `OSError` is raised; `none`: removal succeeds). -/
structure Candidate where
  path : String
  file : FileContent
  removeFails : Option String
deriving DecidableEq, Repr

/-- Effect of the loop body of `cleanup_directory` (source lines 74-87) on a
single candidate: whether the file was deleted, the stdout lines and the
stderr lines produced. -/
structure PerFile where
  deleted : Bool
  out : List String
  err : List String
deriving DecidableEq, Repr

/-- The body of the per-file loop (source lines 75-87).  An exception from
classification or from `os.remove` is caught by the `except Exception`
handler, which prints the per-file error line; a warning printed inside
`is_empty_csv` precedes any deletion error line. -/
def processFile (delimiter : String) (dry_run verbose : Bool) (c : Candidate) :
    PerFile :=
  match is_empty_csv c.path delimiter c.file with
  | .raises e => { deleted := false, out := [], err := [errMsg c.path e] }
  | .returns b warns =>
    if b then
      if dry_run then
        { deleted := false, out := ["Would delete: " ++ c.path], err := warns }
      else
        match c.removeFails with
        | some e =>
          { deleted := false, out := [], err := warns ++ [errMsg c.path e] }
        | none =>
          { deleted := true,
            out := if verbose then ["Deleted: " ++ c.path] else [],
            err := warns }
    else
      { deleted := false,
        out := if verbose then ["Keeping: " ++ c.path ++ " (contains data)"] else [],
        err := warns }

/-- Accumulated state of the walk: the two counters, the candidates that are
still on disk, and the output printed so far. -/
structure WalkState where
  files_checked : Nat
  files_deleted : Nat
  remaining : List Candidate
  stdout : List String
  stderr : List String
deriving DecidableEq, Repr

/-- One iteration of the walk: `files_checked` is incremented for every
candidate, `files_deleted` only on successful deletion, and a candidate that
is not deleted stays on disk. -/
def stepFile (delimiter : String) (dry_run verbose : Bool) (st : WalkState)
    (c : Candidate) : WalkState :=
  let p := processFile delimiter dry_run verbose c
  { files_checked := st.files_checked + 1,
    files_deleted := st.files_deleted + (if p.deleted then 1 else 0),
    remaining := st.remaining ++ (if p.deleted then [] else [c]),
    stdout := st.stdout ++ p.out,
    stderr := st.stderr ++ p.err }

/-- `cleanup_directory` (source lines 60-89) on an already enumerated list of
candidates, as the fold of `stepFile` from zeroed counters.  The candidate
list stands for the result of the glob (line 66); directory-name details of
the verbose banner line (line 69) are elided, and the `isdir` guard of line
57 is modelled at the `main` level, which establishes it before calling. -/
def cleanup_directory (delimiter : String) (dry_run verbose : Bool)
    (files : List Candidate) : WalkState :=
  List.foldl (stepFile delimiter dry_run verbose)
    { files_checked := 0, files_deleted := 0, remaining := [],
      stdout :=
        if verbose then ["Found " ++ toString files.length ++ " CSV files"] else [],
      stderr := [] }
    files

/-- The command-line configuration after argument parsing. -/
structure MainArgs where
  directory : String
  dry_run : Bool
  verbose : Bool
  recursive : Bool
  delimiter : String
deriving DecidableEq, Repr

/-- What the two path checks of `main` (source lines 142-148) observe about
the configured root. -/
inductive PathStatus
  | missing
  | notDirectory
  | isDirectory
deriving DecidableEq, Repr

/-- Result of running `main`: the process exit code, the streams, the walk
result when the walk ran at all, and the candidate files left on disk. -/
structure MainResult where
  exit_code : Nat
  stdout : List String
  stderr : List String
  walk : Option WalkState
  finalFiles : List Candidate
deriving DecidableEq, Repr

/-- The startup banner printed once validation passed (source lines 150-153). -/
def banner (args : MainArgs) (delimiter : String) : List String :=
  ["Processing directory: " ++ args.directory,
   "Mode: " ++
     (if args.dry_run then "Dry run (no files will be deleted)"
      else "Delete empty files"),
   "Delimiter: '" ++ delimiter ++ "'",
   "Recursive: " ++ (if args.recursive then "Yes" else "No")]

/-- The final summary block (source lines 163-165); the leading blank line
models the newline in front of the summary heading. -/
def summaryLines (dry_run : Bool) (w : WalkState) : List String :=
  ["", "Summary:",
   "  Files checked: " ++ toString w.files_checked,
   "  Empty files " ++ (if dry_run then "would be deleted" else "deleted") ++
     ": " ++ toString w.files_deleted]

/-- `main` (source lines 96-174) after argument parsing: the delimiter
aliases are resolved, then the root path is validated — a missing path or a
non-directory is reported to stderr and the function returns 1 before any
enumeration, classification or deletion — and only then does the walk run,
followed by the summary, with exit code 0.  The path string stands for the
result of `os.path.abspath`, whose resolution is environment state outside
the program. -/
def main_run (args : MainArgs) (status : PathStatus)
    (files : List Candidate) : MainResult :=
  let delimiter := resolve_delimiter args.delimiter
  match status with
  | .missing =>
    { exit_code := 1, stdout := [],
      stderr := ["Error: Directory '" ++ args.directory ++ "' does not exist"],
      walk := none, finalFiles := files }
  | .notDirectory =>
    { exit_code := 1, stdout := [],
      stderr := ["Error: '" ++ args.directory ++ "' is not a directory"],
      walk := none, finalFiles := files }
  | .isDirectory =>
    let w := cleanup_directory delimiter args.dry_run args.verbose files
    { exit_code := 0,
      stdout := banner args delimiter ++ w.stdout ++ summaryLines args.dry_run w,
      stderr := w.stderr,
      walk := some w,
      finalFiles := w.remaining }

example :
    (cleanup_directory "," false false
      [⟨"a.csv", .text "name,age\n", none⟩,
       ⟨"b.csv", .text "name,age\nbob,30\n", none⟩]).files_deleted = 1 := by decide

example :
    (cleanup_directory "," false false
      [⟨"a.csv", .text "name,age\n", none⟩,
       ⟨"b.csv", .text "name,age\nbob,30\n", none⟩]).remaining =
      [⟨"b.csv", .text "name,age\nbob,30\n", none⟩] := by decide

example :
    (cleanup_directory "," true false
      [⟨"f.csv", .text "name,age\n", none⟩]).stdout =
      ["Would delete: f.csv"] := by decide

/-! ### Parser lemmas: the record reader consumes input -/

lemma dropLF_length_le (cs : List Char) : (dropLF cs).length ≤ cs.length := by
  cases cs with
  | nil => simp [dropLF]
  | cons c r =>
    simp only [dropLF]
    split <;> simp

lemma recAux_length_le (d : Char) :
    ∀ (cs : List Char) (st : CsvState) (fs : List String) (f : List Char),
      ((recAux d st fs f cs).2).length ≤ cs.length := by
  intro cs
  induction cs with
  | nil =>
    intro st fs f
    simp [recAux, endRec]
  | cons c cs ih =>
    intro st fs f
    cases st <;>
      · simp only [recAux]
        split
        · exact le_trans (by simpa [endRec] using dropLF_length_le cs) (Nat.le_succ _)
        · simp only [endRec]
          exact Nat.le_succ _
        · exact le_trans (ih _ _ _) (Nat.le_succ _)

lemma recAux_cons_length_lt (d : Char) (st : CsvState) (fs : List String)
    (f : List Char) (c : Char) (cs : List Char) :
    ((recAux d st fs f (c :: cs)).2).length < (c :: cs).length := by
  cases st <;>
    · simp only [recAux]
      split
      · exact Nat.lt_succ_of_le (by simpa [endRec] using dropLF_length_le cs)
      · simp only [endRec]
        exact Nat.lt_succ_of_le le_rfl
      · exact Nat.lt_succ_of_le (recAux_length_le d cs _ _ _)

lemma nextRecord_eq_none_iff (d : Char) (cs : List Char) :
    nextRecord d cs = none ↔ cs = [] := by
  cases cs with
  | nil => simp [nextRecord]
  | cons c cs =>
    simp only [nextRecord]
    split <;> simp
    split <;> simp

lemma nextRecord_length_lt (d : Char) {cs rest : List Char} {r : List String}
    (h : nextRecord d cs = some (r, rest)) : rest.length < cs.length := by
  cases cs with
  | nil => simp [nextRecord] at h
  | cons c cs =>
    simp only [nextRecord] at h
    split at h
    · cases h
      simp
    · split at h
      · cases h
        exact Nat.lt_succ_of_le (dropLF_length_le cs)
      · have h2 : recAux d .startField [] [] (c :: cs) = (r, rest) := by
          simpa using h
        have h3 : (recAux d .startField [] [] (c :: cs)).2 = rest := by rw [h2]
        have := recAux_cons_length_lt d .startField [] [] c cs
        rw [h3] at this
        exact this

/-! ### Fuel stability and the unfolding equation of `csvRecords` -/

lemma csvRecordsFuel_congr (d : Char) :
    ∀ (fuel1 fuel2 : Nat) (cs : List Char), cs.length ≤ fuel1 →
      cs.length ≤ fuel2 → csvRecordsFuel d fuel1 cs = csvRecordsFuel d fuel2 cs := by
  intro fuel1
  induction fuel1 with
  | zero =>
    intro fuel2 cs h1 h2
    have hnil : cs = [] := List.eq_nil_of_length_eq_zero (Nat.le_zero.mp h1)
    subst hnil
    cases fuel2 with
    | zero => rfl
    | succ fuel2 => simp [csvRecordsFuel, nextRecord]
  | succ fuel1 ih =>
    intro fuel2 cs h1 h2
    cases fuel2 with
    | zero =>
      have hnil : cs = [] := List.eq_nil_of_length_eq_zero (Nat.le_zero.mp h2)
      subst hnil
      simp [csvRecordsFuel, nextRecord]
    | succ fuel2 =>
      simp only [csvRecordsFuel]
      cases hnr : nextRecord d cs with
      | none => rfl
      | some p =>
        obtain ⟨r, rest⟩ := p
        have hlt := nextRecord_length_lt d hnr
        have hr1 : rest.length ≤ fuel1 := Nat.lt_succ_iff.mp (lt_of_lt_of_le hlt h1)
        have hr2 : rest.length ≤ fuel2 := Nat.lt_succ_iff.mp (lt_of_lt_of_le hlt h2)
        show r :: csvRecordsFuel d fuel1 rest = r :: csvRecordsFuel d fuel2 rest
        rw [ih fuel2 rest hr1 hr2]

lemma csvRecords_nil (d : Char) : csvRecords d [] = [] := rfl

lemma csvRecords_cons (d : Char) {cs rest : List Char} {r : List String}
    (h : nextRecord d cs = some (r, rest)) :
    csvRecords d cs = r :: csvRecords d rest := by
  have hne : cs ≠ [] := by
    intro hnil
    rw [hnil] at h
    simp [nextRecord] at h
  obtain ⟨c, cs2, rfl⟩ := List.exists_cons_of_ne_nil hne
  have hlt := nextRecord_length_lt d h
  unfold csvRecords
  simp only [List.length_cons, csvRecordsFuel, h]
  rw [csvRecordsFuel_congr d cs2.length rest.length rest (Nat.lt_succ_iff.mp hlt) le_rfl]

/-- The classifier body agrees with the record count: the second call to
`next(reader, None)` returns `None` exactly when the file has at most one
record in total. -/
theorem is_empty_core_iff_records (d : Char) (s : String) :
    is_empty_core d s = true ↔ (csvRecords d s.data).length ≤ 1 := by
  unfold is_empty_core
  cases h1 : nextRecord d s.data with
  | none =>
    have : s.data = [] := (nextRecord_eq_none_iff d s.data).mp h1
    rw [this, csvRecords_nil]
    simp
  | some p1 =>
    obtain ⟨r1, rest1⟩ := p1
    rw [csvRecords_cons d h1]
    cases h2 : nextRecord d rest1 with
    | none =>
      have hn : rest1 = [] := (nextRecord_eq_none_iff d rest1).mp h2
      rw [hn, csvRecords_nil]
      simp [nextRecord]
    | some p2 =>
      obtain ⟨r2, rest2⟩ := p2
      rw [csvRecords_cons d h2]
      simp [h2]

/-! ### Walker lemmas -/

/-- Whether the loop body deletes the candidate; the verbose flag only
changes what is printed, so it is fixed to `false` here. -/
def deletedFlag (delimiter : String) (dry_run : Bool) (c : Candidate) : Bool :=
  (processFile delimiter dry_run false c).deleted

/-- Whether `is_empty_csv` lets an exception escape on this candidate. -/
def classifyRaises (delimiter : String) (c : Candidate) : Bool :=
  match is_empty_csv c.path delimiter c.file with
  | .raises _ => true
  | .returns _ _ => false

/-- Whether `is_empty_csv` returns `True` on this candidate. -/
def classifiedEmpty (delimiter : String) (c : Candidate) : Bool :=
  match is_empty_csv c.path delimiter c.file with
  | .raises _ => false
  | .returns b _ => b

/-- Whether processing this candidate hits the per-file `except Exception`
handler: either classification raises, or the file is classified empty and
`os.remove` (reached only outside dry-run mode) fails. -/
def processRaisesB (delimiter : String) (dry_run : Bool) (c : Candidate) : Bool :=
  match is_empty_csv c.path delimiter c.file with
  | .raises _ => true
  | .returns b _ => b && !dry_run && c.removeFails.isSome

/-- The stderr lines the walk produces, in order. -/
def walkErr (delimiter : String) (dry_run verbose : Bool) : List Candidate → List String
  | [] => []
  | c :: cs => (processFile delimiter dry_run verbose c).err ++ walkErr delimiter dry_run verbose cs

lemma processFile_deleted_eq (delimiter : String) (dry_run verbose : Bool)
    (c : Candidate) :
    (processFile delimiter dry_run verbose c).deleted = deletedFlag delimiter dry_run c := by
  unfold deletedFlag processFile
  cases is_empty_csv c.path delimiter c.file with
  | raises e => rfl
  | returns b warns =>
    cases b with
    | false => rfl
    | true =>
      cases dry_run with
      | true => rfl
      | false => cases c.removeFails <;> rfl

lemma deletedFlag_dry (delimiter : String) (c : Candidate) :
    deletedFlag delimiter true c = false := by
  unfold deletedFlag processFile
  cases is_empty_csv c.path delimiter c.file with
  | raises e => rfl
  | returns b warns => cases b <;> rfl

lemma stepFile_files_checked (delimiter : String) (dry_run verbose : Bool)
    (st : WalkState) (c : Candidate) :
    (stepFile delimiter dry_run verbose st c).files_checked = st.files_checked + 1 := rfl

lemma stepFile_files_deleted (delimiter : String) (dry_run verbose : Bool)
    (st : WalkState) (c : Candidate) :
    (stepFile delimiter dry_run verbose st c).files_deleted
      = st.files_deleted + (if deletedFlag delimiter dry_run c then 1 else 0) := by
  show st.files_deleted + (if (processFile delimiter dry_run verbose c).deleted then 1 else 0) = _
  rw [processFile_deleted_eq]

lemma stepFile_remaining (delimiter : String) (dry_run verbose : Bool)
    (st : WalkState) (c : Candidate) :
    (stepFile delimiter dry_run verbose st c).remaining
      = st.remaining ++ (if deletedFlag delimiter dry_run c then [] else [c]) := by
  show st.remaining ++ (if (processFile delimiter dry_run verbose c).deleted then [] else [c]) = _
  rw [processFile_deleted_eq]

lemma stepFile_stderr (delimiter : String) (dry_run verbose : Bool)
    (st : WalkState) (c : Candidate) :
    (stepFile delimiter dry_run verbose st c).stderr
      = st.stderr ++ (processFile delimiter dry_run verbose c).err := rfl

lemma foldl_files_checked (delimiter : String) (dry_run verbose : Bool) :
    ∀ (files : List Candidate) (st : WalkState),
      (List.foldl (stepFile delimiter dry_run verbose) st files).files_checked
        = st.files_checked + files.length := by
  intro files
  induction files with
  | nil => intro st; simp
  | cons c cs ih =>
    intro st
    rw [List.foldl_cons, ih, stepFile_files_checked]
    simp only [List.length_cons]
    omega

lemma foldl_files_deleted (delimiter : String) (dry_run verbose : Bool) :
    ∀ (files : List Candidate) (st : WalkState),
      (List.foldl (stepFile delimiter dry_run verbose) st files).files_deleted
        = st.files_deleted + files.countP (deletedFlag delimiter dry_run) := by
  intro files
  induction files with
  | nil => intro st; simp
  | cons c cs ih =>
    intro st
    rw [List.foldl_cons, ih, stepFile_files_deleted, List.countP_cons]
    omega

lemma foldl_remaining (delimiter : String) (dry_run verbose : Bool) :
    ∀ (files : List Candidate) (st : WalkState),
      (List.foldl (stepFile delimiter dry_run verbose) st files).remaining
        = st.remaining ++ files.filter (fun c => !deletedFlag delimiter dry_run c) := by
  intro files
  induction files with
  | nil => intro st; simp
  | cons c cs ih =>
    intro st
    rw [List.foldl_cons, ih, stepFile_remaining, List.filter_cons]
    cases h : deletedFlag delimiter dry_run c <;> simp [h]

lemma foldl_stderr (delimiter : String) (dry_run verbose : Bool) :
    ∀ (files : List Candidate) (st : WalkState),
      (List.foldl (stepFile delimiter dry_run verbose) st files).stderr
        = st.stderr ++ walkErr delimiter dry_run verbose files := by
  intro files
  induction files with
  | nil => intro st; simp [walkErr]
  | cons c cs ih =>
    intro st
    rw [List.foldl_cons, ih, stepFile_stderr, walkErr]
    simp [List.append_assoc]

lemma mem_walkErr_of_mem (delimiter : String) (dry_run verbose : Bool)
    {files : List Candidate} {c : Candidate} (hc : c ∈ files) {x : String}
    (hx : x ∈ (processFile delimiter dry_run verbose c).err) :
    x ∈ walkErr delimiter dry_run verbose files := by
  induction files with
  | nil => cases hc
  | cons a as ih =>
    rw [walkErr]
    rcases List.mem_cons.mp hc with rfl | hmem
    · exact List.mem_append_left _ hx
    · exact List.mem_append_right _ (ih hmem)

lemma cleanup_files_checked (delimiter : String) (dry_run verbose : Bool)
    (files : List Candidate) :
    (cleanup_directory delimiter dry_run verbose files).files_checked = files.length := by
  unfold cleanup_directory
  rw [foldl_files_checked]
  simp

lemma cleanup_files_deleted (delimiter : String) (dry_run verbose : Bool)
    (files : List Candidate) :
    (cleanup_directory delimiter dry_run verbose files).files_deleted
      = files.countP (deletedFlag delimiter dry_run) := by
  unfold cleanup_directory
  rw [foldl_files_deleted]
  simp

lemma cleanup_remaining (delimiter : String) (dry_run verbose : Bool)
    (files : List Candidate) :
    (cleanup_directory delimiter dry_run verbose files).remaining
      = files.filter (fun c => !deletedFlag delimiter dry_run c) := by
  unfold cleanup_directory
  rw [foldl_remaining]
  rfl

lemma cleanup_stderr (delimiter : String) (dry_run verbose : Bool)
    (files : List Candidate) :
    (cleanup_directory delimiter dry_run verbose files).stderr
      = walkErr delimiter dry_run verbose files := by
  unfold cleanup_directory
  rw [foldl_stderr]
  rfl

lemma resolve_delimiter_eq_self {arg : String} (hp : pyLower arg ≠ "pipe")
    (ht : pyLower arg ≠ "tab") : resolve_delimiter arg = arg := by
  unfold resolve_delimiter
  rw [if_neg hp, if_neg ht]

/-! ### Claim theorems -/

/-- C1.  For every file path and single-character delimiter, `is_empty`
returns true exactly when the file, parsed as delimiter-separated records
with CSV quoting, contains no second record after the header (including the
zero-byte file, whose record list is empty, and a header line with a
trailing newline), and returns false whenever at least one record exists
after the header, even if all of that record's fields are empty strings:
the returned boolean is precisely `records ≤ 1`, and no warning is
emitted. -/
theorem C1_is_empty_iff_no_second_record (path delimiter : String) (s : String)
    (h : delimiter.length = 1) :
    is_empty_csv path delimiter (FileContent.text s)
      = Outcome.returns (decide ((csvRecords delimiter.front s.data).length ≤ 1)) [] := by
  simp only [is_empty_csv]
  rw [if_pos h]
  have hiff := is_empty_core_iff_records delimiter.front s
  by_cases hp : (csvRecords delimiter.front s.data).length ≤ 1
  · rw [hiff.mpr hp, decide_eq_true hp]
  · have hcore : is_empty_core delimiter.front s = false := by
      cases hb : is_empty_core delimiter.front s
      · rfl
      · exact absurd (hiff.mp hb) hp
    rw [hcore, decide_eq_false hp]

/-- Witness for C1 at concrete inputs: a header-only file with trailing
newline is classified empty, and the record count on that file is indeed at
most one. -/
theorem C1_witness :
    is_empty_csv "a.csv" "," (FileContent.text "name,age\n")
      = Outcome.returns (decide ((csvRecords ",".front "name,age\n".data).length ≤ 1)) [] :=
  C1_is_empty_iff_no_second_record "a.csv" "," "name,age\n" (by decide)

/-- C2.  For every file that fails UTF-8 decoding or that the CSV parser
cannot tokenize (with a valid single-character delimiter, so that the
`csv.reader` construction itself succeeds), `is_empty` returns `False` and a
warning naming the path and the failure reason goes to stderr; the exception
is not propagated. -/
theorem C2_decode_parse_failures_return_false (path delimiter msg : String)
    (h : delimiter.length = 1) :
    is_empty_csv path delimiter (FileContent.decodeError msg)
      = Outcome.returns false [warnMsg path msg] ∧
    is_empty_csv path delimiter (FileContent.csvError msg)
      = Outcome.returns false [warnMsg path msg] := by
  simp only [is_empty_csv]
  rw [if_pos h]
  exact ⟨rfl, rfl⟩

/-- Witness for C2 at a concrete undecodable file. -/
theorem C2_witness :
    is_empty_csv "c.csv" "," (FileContent.decodeError "invalid start byte")
      = Outcome.returns false [warnMsg "c.csv" "invalid start byte"] ∧
    is_empty_csv "c.csv" "," (FileContent.csvError "field larger than field limit")
      = Outcome.returns false [warnMsg "c.csv" "field larger than field limit"] :=
  C2_decode_parse_failures_return_false "c.csv" "," "invalid start byte" (by decide)
    |>.imp id (fun _ =>
      (C2_decode_parse_failures_return_false "c.csv" ","
        "field larger than field limit" (by decide)).2)

/-- C3.  With the dry-run flag set, the walk deletes nothing: every candidate
is still present afterwards, the deleted counter of the walk is 0, at `main`
level the filesystem is returned unchanged, and the printed summary reports
0 deletions. -/
theorem C3_dry_run_deletes_nothing (delimiter : String) (verbose : Bool)
    (files : List Candidate) (dir delimArg : String) (recursive verbose2 : Bool) :
    (cleanup_directory delimiter true verbose files).files_deleted = 0 ∧
    (cleanup_directory delimiter true verbose files).remaining = files ∧
    (main_run ⟨dir, true, verbose2, recursive, delimArg⟩
        PathStatus.isDirectory files).finalFiles = files ∧
    "  Empty files would be deleted: 0" ∈
      (main_run ⟨dir, true, verbose2, recursive, delimArg⟩
        PathStatus.isDirectory files).stdout := by
  have hdel : ∀ (d : String) (v : Bool),
      (cleanup_directory d true v files).files_deleted = 0 := by
    intro d v
    rw [cleanup_files_deleted]
    exact List.countP_eq_zero.mpr (fun c _ => by simp [deletedFlag_dry])
  have hrem : ∀ (d : String) (v : Bool),
      (cleanup_directory d true v files).remaining = files := by
    intro d v
    rw [cleanup_remaining]
    exact List.filter_eq_self.mpr (fun c _ => by simp [deletedFlag_dry])
  refine ⟨hdel delimiter verbose, hrem delimiter verbose, ?_, ?_⟩
  · show (cleanup_directory (resolve_delimiter delimArg) true verbose2 files).remaining = files
    exact hrem _ _
  · show _ ∈ banner _ _ ++ _ ++ summaryLines true
      (cleanup_directory (resolve_delimiter delimArg) true verbose2 files)
    refine List.mem_append_right _ ?_
    have h0 := hdel (resolve_delimiter delimArg) verbose2
    unfold summaryLines
    rw [h0]
    simp
    exact Or.inr (by decide)

/-- C4.  The counters of the walk are monotone in its progress and satisfy
`files_deleted ≤ files_checked` at every intermediate point (the state after
`k` candidates is the walk over the length-`k` prefix) as well as for the
returned pair. -/
theorem C4_counter_invariants (delimiter : String) (dry_run verbose : Bool)
    (files : List Candidate) :
    (∀ k : Nat,
      (cleanup_directory delimiter dry_run verbose (files.take k)).files_deleted
        ≤ (cleanup_directory delimiter dry_run verbose (files.take k)).files_checked) ∧
    (∀ k : Nat,
      (cleanup_directory delimiter dry_run verbose (files.take k)).files_checked
        ≤ (cleanup_directory delimiter dry_run verbose (files.take (k + 1))).files_checked ∧
      (cleanup_directory delimiter dry_run verbose (files.take k)).files_deleted
        ≤ (cleanup_directory delimiter dry_run verbose (files.take (k + 1))).files_deleted) ∧
    (cleanup_directory delimiter dry_run verbose files).files_deleted
      ≤ (cleanup_directory delimiter dry_run verbose files).files_checked := by
  refine ⟨?_, ?_, ?_⟩
  · intro k
    rw [cleanup_files_deleted, cleanup_files_checked]
    exact List.countP_le_length _
  · intro k
    constructor
    · rw [cleanup_files_checked, cleanup_files_checked,
        List.length_take, List.length_take]
      omega
    · rw [cleanup_files_deleted, cleanup_files_deleted, List.take_succ,
        List.countP_append]
      exact Nat.le_add_right _ _
  · rw [cleanup_files_deleted, cleanup_files_checked]
    exact List.countP_le_length _

lemma processFile_raises {delimiter : String} {c : Candidate} {e : String}
    (hm : is_empty_csv c.path delimiter c.file = Outcome.raises e)
    (dry_run verbose : Bool) :
    processFile delimiter dry_run verbose c
      = { deleted := false, out := [], err := [errMsg c.path e] } := by
  unfold processFile
  rw [hm]

lemma processFile_removeFail {delimiter : String} {c : Candidate}
    {warns : List String} {e : String}
    (hm : is_empty_csv c.path delimiter c.file = Outcome.returns true warns)
    (hrf : c.removeFails = some e) (verbose : Bool) :
    processFile delimiter false verbose c
      = { deleted := false, out := [], err := warns ++ [errMsg c.path e] } := by
  unfold processFile
  rw [hm]
  show (match c.removeFails with
    | some e => { deleted := false, out := [], err := warns ++ [errMsg c.path e] }
    | none => { deleted := true,
                out := if verbose then ["Deleted: " ++ c.path] else [],
                err := warns } : PerFile) = _
  rw [hrf]

lemma processRaises_outcome {delimiter : String} {dry_run : Bool} {c : Candidate}
    (h : processRaisesB delimiter dry_run c = true) (verbose : Bool) :
    (processFile delimiter dry_run verbose c).deleted = false ∧
    ∃ e, errMsg c.path e ∈ (processFile delimiter dry_run verbose c).err := by
  unfold processRaisesB at h
  cases hm : is_empty_csv c.path delimiter c.file with
  | raises e =>
    rw [processFile_raises hm]
    exact ⟨rfl, e, by simp⟩
  | returns b warns =>
    rw [hm] at h
    simp only [Bool.and_eq_true, Bool.not_eq_eq_eq_not, Bool.not_true] at h
    obtain ⟨⟨hb, hdry⟩, hsome⟩ := h
    subst hb
    subst hdry
    obtain ⟨e, he⟩ := Option.isSome_iff_exists.mp hsome
    rw [processFile_removeFail hm he]
    exact ⟨rfl, e, by simp⟩

lemma deletedFlag_eq_classifiedEmpty {delimiter : String} {c : Candidate}
    (hrf : c.removeFails = none) (hcr : classifyRaises delimiter c = false) :
    deletedFlag delimiter false c = classifiedEmpty delimiter c := by
  unfold classifyRaises at hcr
  unfold deletedFlag processFile classifiedEmpty
  cases hm : is_empty_csv c.path delimiter c.file with
  | raises e =>
    rw [hm] at hcr
  | returns b warns =>
    cases b with
    | false => rfl
    | true =>
      show (match c.removeFails with
        | some e => { deleted := false, out := [], err := warns ++ [errMsg c.path e] }
        | none => { deleted := true, out := [], err := warns } : PerFile).deleted = true
      rw [hrf]

lemma is_empty_csv_multichar {delimiter : String} (hlen : delimiter.length ≠ 1)
    (path : String) (f : FileContent) :
    ∃ e, is_empty_csv path delimiter f = Outcome.raises e := by
  cases f with
  | openError m => exact ⟨m, rfl⟩
  | text s =>
    refine ⟨typeErrorMsg, ?_⟩
    simp only [is_empty_csv]
    rw [if_neg hlen]
  | decodeError m =>
    refine ⟨typeErrorMsg, ?_⟩
    simp only [is_empty_csv]
    rw [if_neg hlen]
  | csvError m =>
    refine ⟨typeErrorMsg, ?_⟩
    simp only [is_empty_csv]
    rw [if_neg hlen]

/-- C5.  Any error raised while processing one candidate — classification
raising an exception, or `os.remove` failing outside dry-run mode on a file
classified empty — is caught by the per-file handler: the candidate is not
deleted (and not counted as deleted), an `Error processing` line with its
path goes to stderr, and the walk still visits every other candidate, so the
checked counter equals the total number of candidates and the failing file
stays on disk. -/
theorem C5_per_file_failure_is_isolated (delimiter : String)
    (dry_run verbose : Bool) (c : Candidate) (l1 l2 : List Candidate)
    (h : processRaisesB delimiter dry_run c = true) :
    (processFile delimiter dry_run verbose c).deleted = false ∧
    (∃ e, errMsg c.path e ∈ (processFile delimiter dry_run verbose c).err) ∧
    (cleanup_directory delimiter dry_run verbose (l1 ++ c :: l2)).files_checked
      = l1.length + 1 + l2.length ∧
    c ∈ (cleanup_directory delimiter dry_run verbose (l1 ++ c :: l2)).remaining := by
  obtain ⟨hdel, herr⟩ := processRaises_outcome h verbose
  have hdf : deletedFlag delimiter dry_run c = false :=
    (processRaises_outcome h false).1
  refine ⟨hdel, herr, ?_, ?_⟩
  · rw [cleanup_files_checked]
    simp only [List.length_append, List.length_cons]
    omega
  · rw [cleanup_remaining]
    refine List.mem_filter.mpr ⟨by simp, ?_⟩
    simp [hdf]

/-- Witness for C5: a header-only file whose removal fails with a permission
error is not deleted, produces an error line, is still counted as checked
and remains on disk. -/
theorem C5_witness :
    (processFile "," false false
        ⟨"e.csv", FileContent.text "h\n", some "Permission denied"⟩).deleted = false ∧
    (∃ e, errMsg "e.csv" e ∈ (processFile "," false false
        ⟨"e.csv", FileContent.text "h\n", some "Permission denied"⟩).err) ∧
    (cleanup_directory "," false false
        ([] ++ ⟨"e.csv", FileContent.text "h\n", some "Permission denied"⟩ :: [])).files_checked
      = List.length ([] : List Candidate) + 1 + List.length ([] : List Candidate) ∧
    (⟨"e.csv", FileContent.text "h\n", some "Permission denied"⟩ : Candidate) ∈
      (cleanup_directory "," false false
        ([] ++ ⟨"e.csv", FileContent.text "h\n", some "Permission denied"⟩ :: [])).remaining :=
  C5_per_file_failure_is_isolated "," false false
    ⟨"e.csv", FileContent.text "h\n", some "Permission denied"⟩ [] [] (by decide)

/-- C6.  If the configured root does not exist or is not a directory, `main`
reports a descriptive error on stderr and returns exit code 1 before the
walk runs: no walk result exists, nothing is printed to stdout, and the
filesystem is unchanged. -/
theorem C6_invalid_root_fails_before_walk (args : MainArgs) (status : PathStatus)
    (files : List Candidate)
    (h : status = PathStatus.missing ∨ status = PathStatus.notDirectory) :
    (main_run args status files).exit_code = 1 ∧
    (main_run args status files).walk = none ∧
    (main_run args status files).finalFiles = files ∧
    (main_run args status files).stdout = [] ∧
    (status = PathStatus.missing →
      (main_run args status files).stderr
        = ["Error: Directory '" ++ args.directory ++ "' does not exist"]) ∧
    (status = PathStatus.notDirectory →
      (main_run args status files).stderr
        = ["Error: '" ++ args.directory ++ "' is not a directory"]) := by
  rcases h with rfl | rfl
  · exact ⟨rfl, rfl, rfl, rfl, fun _ => rfl, fun hc => absurd hc (by decide)⟩
  · exact ⟨rfl, rfl, rfl, rfl, fun hc => absurd hc (by decide), fun _ => rfl⟩

/-- Witness for C6 at a concrete missing root. -/
theorem C6_witness :
    (main_run ⟨"/data", false, false, false, ","⟩ PathStatus.missing []).exit_code = 1 ∧
    (main_run ⟨"/data", false, false, false, ","⟩ PathStatus.missing []).walk = none ∧
    (main_run ⟨"/data", false, false, false, ","⟩ PathStatus.missing []).finalFiles = [] ∧
    (main_run ⟨"/data", false, false, false, ","⟩ PathStatus.missing []).stdout = [] ∧
    (PathStatus.missing = PathStatus.missing →
      (main_run ⟨"/data", false, false, false, ","⟩ PathStatus.missing []).stderr
        = ["Error: Directory '" ++ "/data" ++ "' does not exist"]) ∧
    (PathStatus.missing = PathStatus.notDirectory →
      (main_run ⟨"/data", false, false, false, ","⟩ PathStatus.missing []).stderr
        = ["Error: '" ++ "/data" ++ "' is not a directory"]) :=
  C6_invalid_root_fails_before_walk ⟨"/data", false, false, false, ","⟩
    PathStatus.missing [] (Or.inl rfl)

/-- C7 counterexample.  The claim says that any delimiter value other than
`pipe` and `tab` is passed through unchanged, but the code lowercases the
argument before comparing: `PIPE` is neither `pipe` nor `tab`, yet it is
translated to `|` instead of being passed through. -/
theorem C7_counterexample :
    ("PIPE" ≠ "pipe" ∧ "PIPE" ≠ "tab") ∧ resolve_delimiter "PIPE" ≠ "PIPE" := by
  decide

/-- C7, amended.  The values `pipe` and `tab` are translated to `|` and the
tab character before any classification, `--delimiter pipe` classifies every
file identically to the literal `|` delimiter, and any delimiter string whose
lowercased form is neither `pipe` nor `tab` is passed through unchanged. -/
theorem C7_delimiter_aliasing_amended (path : String) (file : FileContent)
    (arg : String) (hp : pyLower arg ≠ "pipe") (ht : pyLower arg ≠ "tab") :
    resolve_delimiter "pipe" = "|" ∧
    resolve_delimiter "tab" = "\t" ∧
    is_empty_csv path (resolve_delimiter "pipe") file
      = is_empty_csv path "|" file ∧
    resolve_delimiter arg = arg := by
  refine ⟨by decide, by decide, ?_, resolve_delimiter_eq_self hp ht⟩
  have hres : resolve_delimiter "pipe" = "|" := by decide
  rw [hres]

/-- Witness for the amended C7 at concrete inputs. -/
theorem C7_witness :
    resolve_delimiter "pipe" = "|" ∧
    resolve_delimiter "tab" = "\t" ∧
    is_empty_csv "p.csv" (resolve_delimiter "pipe") (FileContent.text "a|b\n")
      = is_empty_csv "p.csv" "|" (FileContent.text "a|b\n") ∧
    resolve_delimiter ";" = ";" :=
  C7_delimiter_aliasing_amended "p.csv" (FileContent.text "a|b\n") ";"
    (by decide) (by decide)

/-- C8.  Running the walk twice in non-dry-run mode over the same tree, with
no per-file failures (every classification returns and every removal
succeeds), deletes nothing on the second run: the first run leaves exactly
the files classified non-empty, and the second run's deleted counter is 0. -/
theorem C8_second_run_deletes_nothing (delimiter : String) (verbose : Bool)
    (files : List Candidate)
    (h : ∀ c ∈ files, c.removeFails = none ∧ classifyRaises delimiter c = false) :
    (cleanup_directory delimiter false verbose files).remaining
      = files.filter (fun c => !classifiedEmpty delimiter c) ∧
    (cleanup_directory delimiter false verbose
        ((cleanup_directory delimiter false verbose files).remaining)).files_deleted
      = 0 := by
  constructor
  · rw [cleanup_remaining]
    refine List.filter_congr ?_
    intro c hc
    obtain ⟨hrf, hcr⟩ := h c hc
    rw [deletedFlag_eq_classifiedEmpty hrf hcr]
  · rw [cleanup_files_deleted, cleanup_remaining]
    refine List.countP_eq_zero.mpr ?_
    intro c hc
    have h2 := (List.mem_filter.mp hc).2
    simp only [Bool.not_eq_eq_eq_not, Bool.not_true] at h2
    simp [h2]

/-- Witness for C8: two concrete files, one header-only and one with data;
after the first run only the data file remains, and a second run deletes
nothing. -/
theorem C8_witness :
    (cleanup_directory "," false false
        [⟨"a.csv", FileContent.text "name\n", none⟩,
         ⟨"b.csv", FileContent.text "n\nv\n", none⟩]).remaining
      = List.filter (fun c => !classifiedEmpty "," c)
          [⟨"a.csv", FileContent.text "name\n", none⟩,
           ⟨"b.csv", FileContent.text "n\nv\n", none⟩] ∧
    (cleanup_directory "," false false
        ((cleanup_directory "," false false
            [⟨"a.csv", FileContent.text "name\n", none⟩,
             ⟨"b.csv", FileContent.text "n\nv\n", none⟩]).remaining)).files_deleted
      = 0 :=
  C8_second_run_deletes_nothing "," false
    [⟨"a.csv", FileContent.text "name\n", none⟩,
     ⟨"b.csv", FileContent.text "n\nv\n", none⟩]
    (by intro c hc; fin_cases hc <;> exact ⟨rfl, rfl⟩)

/-- C9.  A delimiter string whose length is not 1 — and that is not one of
the aliases, so `main` passes it through — makes `csv.reader` raise a
`TypeError` that `is_empty_csv` does not catch: on every candidate the
walker's per-file handler prints an `Error processing` line, no file is ever
deleted, and the run returns `checked = number of candidates`,
`deleted = 0`. -/
theorem C9_multichar_delimiter_checks_all_deletes_none (args : MainArgs)
    (files : List Candidate)
    (hp : pyLower args.delimiter ≠ "pipe") (ht : pyLower args.delimiter ≠ "tab")
    (hlen : args.delimiter.length ≠ 1) :
    (∀ path s, is_empty_csv path args.delimiter (FileContent.text s)
        = Outcome.raises typeErrorMsg) ∧
    (cleanup_directory args.delimiter args.dry_run args.verbose files).files_checked
      = files.length ∧
    (cleanup_directory args.delimiter args.dry_run args.verbose files).files_deleted
      = 0 ∧
    (cleanup_directory args.delimiter args.dry_run args.verbose files).remaining
      = files ∧
    (∀ c ∈ files, ∃ e, errMsg c.path e ∈
      (cleanup_directory args.delimiter args.dry_run args.verbose files).stderr) ∧
    (main_run args PathStatus.isDirectory files).walk
      = some (cleanup_directory args.delimiter args.dry_run args.verbose files) ∧
    (main_run args PathStatus.isDirectory files).finalFiles = files := by
  have hres := resolve_delimiter_eq_self hp ht
  have hflag : ∀ (dr : Bool) (c : Candidate), deletedFlag args.delimiter dr c = false := by
    intro dr c
    obtain ⟨e, hm⟩ := is_empty_csv_multichar hlen c.path c.file
    unfold deletedFlag
    rw [processFile_raises hm]
  have hrem : (cleanup_directory args.delimiter args.dry_run args.verbose files).remaining
      = files := by
    rw [cleanup_remaining]
    exact List.filter_eq_self.mpr (fun c _ => by simp [hflag])
  refine ⟨?_, ?_, ?_, hrem, ?_, ?_, ?_⟩
  · intro path s
    simp only [is_empty_csv]
    rw [if_neg hlen]
  · rw [cleanup_files_checked]
  · rw [cleanup_files_deleted]
    exact List.countP_eq_zero.mpr (fun c _ => by simp [hflag])
  · intro c hc
    obtain ⟨e, hm⟩ := is_empty_csv_multichar hlen c.path c.file
    refine ⟨e, ?_⟩
    rw [cleanup_stderr]
    refine mem_walkErr_of_mem args.delimiter args.dry_run args.verbose hc ?_
    rw [processFile_raises hm]
    simp
  · show some (cleanup_directory (resolve_delimiter args.delimiter)
      args.dry_run args.verbose files) = _
    rw [hres]
  · show (cleanup_directory (resolve_delimiter args.delimiter)
      args.dry_run args.verbose files).remaining = files
    rw [hres]
    exact hrem

/-- Witness for C9 at a concrete two-character delimiter and one candidate. -/
theorem C9_witness :
    is_empty_csv "a.csv" "::" (FileContent.text "x\n") = Outcome.raises typeErrorMsg ∧
    (cleanup_directory "::" false false
        [⟨"a.csv", FileContent.text "x\n", none⟩]).files_checked = 1 ∧
    (cleanup_directory "::" false false
        [⟨"a.csv", FileContent.text "x\n", none⟩]).files_deleted = 0 ∧
    (cleanup_directory "::" false false
        [⟨"a.csv", FileContent.text "x\n", none⟩]).remaining
      = [⟨"a.csv", FileContent.text "x\n", none⟩] := by
  have h := C9_multichar_delimiter_checks_all_deletes_none
    ⟨"/data", false, false, false, "::"⟩
    [⟨"a.csv", FileContent.text "x\n", none⟩] (by decide) (by decide) (by decide)
  exact ⟨h.1 "a.csv" "x\n", h.2.1, h.2.2.1, h.2.2.2.1⟩

/-- C10.  Alias recognition is case-insensitive: any delimiter argument whose
lowercase form is `pipe` is mapped to `|`, and any whose lowercase form is
`tab` is mapped to the tab character. -/
theorem C10_alias_matching_is_case_insensitive (arg : String) :
    (pyLower arg = "pipe" → resolve_delimiter arg = "|") ∧
    (pyLower arg = "tab" → resolve_delimiter arg = "\t") := by
  constructor
  · intro h
    unfold resolve_delimiter
    rw [if_pos h]
  · intro h
    unfold resolve_delimiter
    rw [if_neg (by rw [h]; decide), if_pos h]

/-- Witness for C10 at the concrete arguments `PIPE` and `TAB`. -/
theorem C10_witness :
    resolve_delimiter "PIPE" = "|" ∧ resolve_delimiter "TAB" = "\t" :=
  ⟨(C10_alias_matching_is_case_insensitive "PIPE").1 (by decide),
   (C10_alias_matching_is_case_insensitive "TAB").2 (by decide)⟩

end CleanupCsv
